import Mathlib

/-!
Shallow embedding of the booksv2 backend route handlers (the Hono route
file in the source tree). The backend is a set of HTTP route handlers
over an external identity provider and a flat key-value store with keys
of the shape user:<id>, collection:<id> and book:<id>. Since every key
carries one of the three fixed namespace markers and every scan uses
exactly one of those markers, the store is embedded as three
string-keyed association lists, one per namespace, with the part of the
key after the marker as the key. The identity provider is embedded as a
function from token to optional user id. JSON body fields that may be
absent are Option String, with none standing for a missing (undefined)
field. Timestamps and generated ids are parameters of each handler.
-/

/-- A user profile record, as written by the signup and profile update
handlers. -/
structure User where
  id : String
  email : String
  name : String
  bio : Option String
  updatedAt : Option String
deriving DecidableEq, Repr

/-- A collection record, as written by the collection creation handler. -/
structure Collection where
  id : String
  name : String
  description : String
  userId : String
  createdAt : String
deriving DecidableEq, Repr

/-- A book record, as written by the book creation and update handlers. -/
structure Book where
  id : String
  title : String
  author : String
  description : String
  coverImage : String
  collectionId : String
  userId : String
  createdAt : String
  updatedAt : Option String
deriving DecidableEq, Repr

/-- Modelled from the spec: the KV store is a flat persistent mapping
from string key to JSON value with get, set, delete and a scan over a
fixed namespace marker; the store itself is an external collaborator of
the route layer. It is embedded as one association list per namespace. -/
structure Store where
  users : List (String × User)
  collections : List (String × Collection)
  books : List (String × Book)
deriving DecidableEq, Repr

/-- The empty store. -/
def Store.empty : Store := ⟨[], [], []⟩

/-- Map lookup in an association list (kv.get). -/
def kvLookup {α : Type} : List (String × α) → String → Option α
  | [], _ => none
  | e :: t, k => if e.1 = k then some e.2 else kvLookup t k

/-- Map deletion in an association list (kv.del): removes every entry
with the given key. -/
def kvDel {α : Type} : List (String × α) → String → List (String × α)
  | [], _ => []
  | e :: t, k => if e.1 = k then kvDel t k else e :: kvDel t k

/-- Map insertion in an association list (kv.set): replaces any entry
with the given key. -/
def kvSet {α : Type} (l : List (String × α)) (k : String) (v : α) :
    List (String × α) :=
  kvDel l k ++ [(k, v)]

/-- Splitting a character list at every occurrence of a separator,
mirroring the JavaScript String split with a one-character separator
(adjacent separators yield empty pieces, like in JavaScript). -/
def splitChar : List Char → Char → List (List Char)
  | [], _ => [[]]
  | c :: t, sep =>
    if c = sep then [] :: splitChar t sep
    else
      match splitChar t sep with
      | [] => [[c]]
      | h :: r => (c :: h) :: r

/-- The verifyUser helper: extract a bearer token from the Authorization
header; if the header is absent or does not start with "Bearer ", fail;
otherwise ask the identity provider with the second space-separated
piece of the header, failing when the provider rejects the token. The
prefix test and the split are expressed on the character list of the
header so that they evaluate by kernel reduction. -/
def verifyUser (provider : String → Option String) (authHeader : Option String) :
    Option String :=
  match authHeader with
  | none => none
  | some hdr =>
    if hdr.data.take 7 = "Bearer ".data then
      provider (String.mk (((splitChar hdr.data ' ').get? 1).getD []))
    else none

/-- The auth gate repeated in every protected handler: the handler
rejects when verifyUser reports an error or when the returned user id is
falsy (the empty string). -/
def checkAuth (provider : String → Option String) (authHeader : Option String) :
    Option String :=
  match verifyUser provider authHeader with
  | none => none
  | some uid => if uid = "" then none else some uid

example : checkAuth (fun t => if t = "tok" then some "alice" else none)
    (some "Bearer tok") = some "alice" := by decide

example : checkAuth (fun t => if t = "tok" then some "alice" else none)
    (some "Basic tok") = none := by decide

/-- Result of a route handler: the HTTP status and the store after the
request. Handlers that do not write leave the store unchanged. -/
structure HResult where
  status : Nat
  store : Store
deriving DecidableEq, Repr

/-- JavaScript falsy coalescing x || y on an optional string field:
the default wins when the field is absent or the empty string. -/
def orElseFalsy (o : Option String) (d : String) : String :=
  match o with
  | some s => if s = "" then d else s
  | none => d

/-- Body of the signup route. -/
structure SignupBody where
  email : Option String
  password : Option String
  name : Option String
deriving DecidableEq, Repr

/-- The signup handler on its success path through the identity
provider: the provider has created the account and issued the user id;
the handler validates the body fields and stores the profile record
under the user id. A falsy email, password or name is rejected with 400
before the provider is called. -/
def signup (uid : String) (body : SignupBody) (s : Store) : HResult :=
  if body.email.getD "" = "" ∨ body.password.getD "" = "" ∨ body.name.getD "" = "" then
    ⟨400, s⟩
  else
    ⟨200, { s with users := (kvSet s.users uid
      { id := uid, email := body.email.getD "", name := body.name.getD "",
        bio := none, updatedAt := none }) }⟩

/-- The public GET collections handler: every collection record paired
with the userName enrichment, which is the name of the user record of
the owner, defaulting to "Unknown User" when that record is absent or
its name is falsy. -/
def getCollections (s : Store) : List (Collection × String) :=
  s.collections.map (fun e =>
    (e.2, match kvLookup s.users e.2.userId with
          | some u => if u.name = "" then "Unknown User" else u.name
          | none => "Unknown User"))

/-- Result of a protected list-books handler. -/
structure BooksResult where
  status : Nat
  books : List Book
  store : Store
deriving DecidableEq, Repr

/-- Result of a protected list-collections handler. -/
structure CollectionsResult where
  status : Nat
  collections : List Collection
  store : Store
deriving DecidableEq, Repr

/-- The protected GET my books handler: all book records whose userId is
the caller. -/
def getMyBooks (p : String → Option String) (h : Option String) (s : Store) :
    BooksResult :=
  match checkAuth p h with
  | none => ⟨401, [], s⟩
  | some uid => ⟨200, (s.books.map (fun e => e.2)).filter (fun b => b.userId = uid), s⟩

/-- The protected GET my collections handler: all collection records
whose userId is the caller. -/
def getMyCollections (p : String → Option String) (h : Option String) (s : Store) :
    CollectionsResult :=
  match checkAuth p h with
  | none => ⟨401, [], s⟩
  | some uid =>
    ⟨200, (s.collections.map (fun e => e.2)).filter (fun c => c.userId = uid), s⟩

/-- Body of the collection creation route. -/
structure CollectionBody where
  name : Option String
  description : Option String
deriving DecidableEq, Repr

/-- The collection creation handler: auth gate, then a 400 on a falsy
name, then the new record is stored under a generated id with the
caller as owner. -/
def createCollection (p : String → Option String) (h : Option String)
    (body : CollectionBody) (newId now : String) (s : Store) : HResult :=
  match checkAuth p h with
  | none => ⟨401, s⟩
  | some uid =>
    if body.name.getD "" = "" then ⟨400, s⟩
    else
      ⟨200, { s with collections := (kvSet s.collections newId
        { id := newId, name := body.name.getD "",
          description := body.description.getD "", userId := uid,
          createdAt := now }) }⟩

/-- Body of the book creation route. -/
structure CreateBookBody where
  title : Option String
  author : Option String
  description : Option String
  collectionId : Option String
  coverImage : Option String
deriving DecidableEq, Repr

/-- The book creation handler: auth gate; 400 on a falsy title or
collectionId; 403 when the referenced collection is absent or not owned
by the caller; otherwise the new record is stored under a generated id
with the caller as owner. -/
def createBook (p : String → Option String) (h : Option String)
    (body : CreateBookBody) (newId now : String) (s : Store) : HResult :=
  match checkAuth p h with
  | none => ⟨401, s⟩
  | some uid =>
    if body.title.getD "" = "" ∨ body.collectionId.getD "" = "" then ⟨400, s⟩
    else
      match kvLookup s.collections (body.collectionId.getD "") with
      | none => ⟨403, s⟩
      | some coll =>
        if coll.userId = uid then
          ⟨200, { s with books := (kvSet s.books newId
            { id := newId, title := body.title.getD "",
              author := body.author.getD "", description := body.description.getD "",
              coverImage := body.coverImage.getD "",
              collectionId := body.collectionId.getD "", userId := uid,
              createdAt := now, updatedAt := none }) }⟩
        else ⟨403, s⟩

/-- Body of the book update route. The handler reads only the five
content fields; id, userId and createdAt are carried to record that a
request body may also supply them, and that the handler ignores them. -/
structure UpdateBookBody where
  title : Option String
  author : Option String
  description : Option String
  coverImage : Option String
  collectionId : Option String
  id : Option String
  userId : Option String
  createdAt : Option String
deriving DecidableEq, Repr

/-- The book update handler: auth gate; one combined 403 when the
record is absent or not owned by the caller; otherwise a per-field
merge of the body over the stored record (title and collectionId by
falsy coalescing, author, description and coverImage by an explicit
undefined test), stamping updatedAt. -/
def updateBook (p : String → Option String) (h : Option String)
    (bookId : String) (body : UpdateBookBody) (now : String) (s : Store) : HResult :=
  match checkAuth p h with
  | none => ⟨401, s⟩
  | some uid =>
    match kvLookup s.books bookId with
    | none => ⟨403, s⟩
    | some book =>
      if book.userId = uid then
        ⟨200, { s with books := (kvSet s.books bookId
          { book with
            title := orElseFalsy body.title book.title,
            author := body.author.getD book.author,
            description := body.description.getD book.description,
            coverImage := body.coverImage.getD book.coverImage,
            collectionId := orElseFalsy body.collectionId book.collectionId,
            updatedAt := some now }) }⟩
      else ⟨403, s⟩

/-- The book deletion handler: auth gate; one combined 403 when the
record is absent or not owned by the caller; otherwise the record is
deleted. -/
def deleteBook (p : String → Option String) (h : Option String)
    (bookId : String) (s : Store) : HResult :=
  match checkAuth p h with
  | none => ⟨401, s⟩
  | some uid =>
    match kvLookup s.books bookId with
    | none => ⟨403, s⟩
    | some book =>
      if book.userId = uid then
        ⟨200, { s with books := kvDel s.books bookId }⟩
      else ⟨403, s⟩

/-- The collection deletion handler: auth gate; one combined 403 when
the record is absent or not owned by the caller; otherwise every book
record whose collectionId is the deleted collection is deleted (each by
its own id field, awaited together before the next step), and then the
collection record is deleted. -/
def deleteCollection (p : String → Option String) (h : Option String)
    (collectionId : String) (s : Store) : HResult :=
  match checkAuth p h with
  | none => ⟨401, s⟩
  | some uid =>
    match kvLookup s.collections collectionId with
    | none => ⟨403, s⟩
    | some coll =>
      if coll.userId = uid then
        let booksToDelete :=
          (s.books.map (fun e => e.2)).filter (fun b => b.collectionId = collectionId)
        ⟨200, { s with
          books := booksToDelete.foldl (fun bs b => kvDel bs b.id) s.books,
          collections := kvDel s.collections collectionId }⟩
      else ⟨403, s⟩

/-- Result of the GET profile handler: the status, the user payload of
the response, and the store after the request. -/
structure ProfileResult where
  status : Nat
  user : Option User
  store : Store
deriving DecidableEq, Repr

/-- The GET profile handler: auth gate, then the user record of the
caller is returned as the user payload with status 200, a null payload
when the record is absent. -/
def getMyProfile (p : String → Option String) (h : Option String) (s : Store) :
    ProfileResult :=
  match checkAuth p h with
  | none => ⟨401, none, s⟩
  | some uid => ⟨200, kvLookup s.users uid, s⟩

/-- Body of the profile update route. -/
structure ProfileBody where
  name : Option String
  bio : Option String
deriving DecidableEq, Repr

/-- The profile update handler: auth gate; 404 when the user record is
absent; otherwise name is merged by falsy coalescing, bio by an
explicit undefined test, and updatedAt is stamped. -/
def updateProfile (p : String → Option String) (h : Option String)
    (body : ProfileBody) (now : String) (s : Store) : HResult :=
  match checkAuth p h with
  | none => ⟨401, s⟩
  | some uid =>
    match kvLookup s.users uid with
    | none => ⟨404, s⟩
    | some user =>
      ⟨200, { s with users := (kvSet s.users uid
        { user with
          name := orElseFalsy body.name user.name,
          bio := match body.bio with
                 | some b => some b
                 | none => user.bio,
          updatedAt := some now }) }⟩

/-- Every stored book entry is keyed by the id field of its record.
Creation stores each record under the generated id it carries, update
keeps the id, so this holds in every reachable store. The cascade in
the collection deletion handler deletes each matching book by the id
field of its record, so this consistency is what makes the cascade
remove exactly the entries it selected. -/
def KeyConsistent (s : Store) : Prop :=
  ∀ e ∈ s.books, e.1 = e.2.id

/-- Every stored user record has a nonempty name: signup rejects a
falsy name and profile update merges the name by falsy coalescing. -/
def NamesNonempty (s : Store) : Prop :=
  ∀ e ∈ s.users, e.2.name ≠ ""

/-- The ownership invariant of claim C2: every stored book references a
collection that is present in the store and owned by the user of the
book. -/
def BookOwnerInv (s : Store) : Prop :=
  ∀ e ∈ s.books,
    (kvLookup s.collections e.2.collectionId).map Collection.userId = some e.2.userId

/-- Store states reachable from the empty store through the mutating
route handlers, for arbitrary providers, headers, bodies and
timestamps. Generated ids are assumed fresh for the namespace of the
created record, matching the generator-issued unique identifiers of
the source. -/
inductive Reachable : Store → Prop where
  | init : Reachable Store.empty
  | step_signup (s : Store) (uid : String) (body : SignupBody) :
      Reachable s → Reachable (signup uid body s).store
  | step_createCollection (s : Store) (p : String → Option String)
      (h : Option String) (body : CollectionBody) (newId now : String) :
      Reachable s → kvLookup s.collections newId = none →
      Reachable (createCollection p h body newId now s).store
  | step_createBook (s : Store) (p : String → Option String)
      (h : Option String) (body : CreateBookBody) (newId now : String) :
      Reachable s → kvLookup s.books newId = none →
      Reachable (createBook p h body newId now s).store
  | step_updateBook (s : Store) (p : String → Option String)
      (h : Option String) (bookId : String) (body : UpdateBookBody) (now : String) :
      Reachable s → Reachable (updateBook p h bookId body now s).store
  | step_deleteBook (s : Store) (p : String → Option String)
      (h : Option String) (bookId : String) :
      Reachable s → Reachable (deleteBook p h bookId s).store
  | step_deleteCollection (s : Store) (p : String → Option String)
      (h : Option String) (collectionId : String) :
      Reachable s → Reachable (deleteCollection p h collectionId s).store
  | step_updateProfile (s : Store) (p : String → Option String)
      (h : Option String) (body : ProfileBody) (now : String) :
      Reachable s → Reachable (updateProfile p h body now s).store

/-- Store states reachable from the empty store through every mutating
route handler except the book update handler. The book update handler
is the one operation that can break the ownership invariant, because it
overwrites collectionId from the request body without any existence or
ownership check on the new collection. -/
inductive ReachableNoPut : Store → Prop where
  | init : ReachableNoPut Store.empty
  | step_signup (s : Store) (uid : String) (body : SignupBody) :
      ReachableNoPut s → ReachableNoPut (signup uid body s).store
  | step_createCollection (s : Store) (p : String → Option String)
      (h : Option String) (body : CollectionBody) (newId now : String) :
      ReachableNoPut s → kvLookup s.collections newId = none →
      ReachableNoPut (createCollection p h body newId now s).store
  | step_createBook (s : Store) (p : String → Option String)
      (h : Option String) (body : CreateBookBody) (newId now : String) :
      ReachableNoPut s → kvLookup s.books newId = none →
      ReachableNoPut (createBook p h body newId now s).store
  | step_deleteBook (s : Store) (p : String → Option String)
      (h : Option String) (bookId : String) :
      ReachableNoPut s → ReachableNoPut (deleteBook p h bookId s).store
  | step_deleteCollection (s : Store) (p : String → Option String)
      (h : Option String) (collectionId : String) :
      ReachableNoPut s → ReachableNoPut (deleteCollection p h collectionId s).store
  | step_updateProfile (s : Store) (p : String → Option String)
      (h : Option String) (body : ProfileBody) (now : String) :
      ReachableNoPut s → ReachableNoPut (updateProfile p h body now s).store

theorem kvLookup_kvDel_self {α : Type} (l : List (String × α)) (k : String) :
    kvLookup (kvDel l k) k = none := by
  induction l with
  | nil => rfl
  | cons e t ih =>
    by_cases he : e.1 = k <;> simp [kvDel, kvLookup, he, ih]

theorem kvLookup_kvDel_ne {α : Type} {l : List (String × α)} {k k2 : String}
    (hne : k2 ≠ k) : kvLookup (kvDel l k) k2 = kvLookup l k2 := by
  induction l with
  | nil => rfl
  | cons e t ih =>
    by_cases he : e.1 = k
    · have h2 : ¬ e.1 = k2 := by rw [he]; exact fun hh => hne hh.symm
      simp only [kvDel, if_pos he, ih, kvLookup, if_neg h2]
    · simp only [kvDel, if_neg he, kvLookup]
      by_cases h2 : e.1 = k2
      · rw [if_pos h2, if_pos h2]
      · rw [if_neg h2, if_neg h2, ih]

theorem kvLookup_kvSet_self {α : Type} (l : List (String × α)) (k : String) (v : α) :
    kvLookup (kvSet l k v) k = some v := by
  unfold kvSet
  induction l with
  | nil => simp [kvLookup]
  | cons e t ih =>
    by_cases he : e.1 = k <;> simp [kvDel, kvLookup, he, ih]

theorem kvLookup_kvSet_ne {α : Type} {l : List (String × α)} {k k2 : String}
    {v : α} (hne : k2 ≠ k) : kvLookup (kvSet l k v) k2 = kvLookup l k2 := by
  unfold kvSet
  induction l with
  | nil =>
    have hk2 : ¬ k = k2 := fun hh => hne hh.symm
    simp only [kvDel, kvLookup, List.nil_append, if_neg hk2]
  | cons e t ih =>
    by_cases he : e.1 = k
    · have h2 : ¬ e.1 = k2 := by rw [he]; exact fun hh => hne hh.symm
      simp only [kvDel, if_pos he, ih, kvLookup, if_neg h2]
    · simp only [kvDel, if_neg he, List.cons_append, kvLookup]
      by_cases h2 : e.1 = k2
      · rw [if_pos h2, if_pos h2]
      · rw [if_neg h2, if_neg h2, ih]

theorem mem_kvDel_iff {α : Type} {l : List (String × α)} {k : String}
    {e : String × α} : e ∈ kvDel l k ↔ e ∈ l ∧ e.1 ≠ k := by
  induction l with
  | nil => simp [kvDel]
  | cons a t ih =>
    by_cases ha : a.1 = k
    · simp only [kvDel, if_pos ha, ih, List.mem_cons]
      constructor
      · rintro ⟨h1, h2⟩
        exact ⟨Or.inr h1, h2⟩
      · rintro ⟨rfl | h1, h2⟩
        · exact absurd ha h2
        · exact ⟨h1, h2⟩
    · simp only [kvDel, if_neg ha, List.mem_cons, ih]
      constructor
      · rintro (rfl | ⟨h1, h2⟩)
        · exact ⟨Or.inl rfl, ha⟩
        · exact ⟨Or.inr h1, h2⟩
      · rintro ⟨rfl | h1, h2⟩
        · exact Or.inl rfl
        · exact Or.inr ⟨h1, h2⟩

theorem mem_kvSet_iff {α : Type} {l : List (String × α)} {k : String} {v : α}
    {e : String × α} : e ∈ kvSet l k v ↔ (e ∈ l ∧ e.1 ≠ k) ∨ e = (k, v) := by
  unfold kvSet
  simp [List.mem_append, mem_kvDel_iff]

theorem kvLookup_mem {α : Type} {l : List (String × α)} {k : String} {v : α}
    (hl : kvLookup l k = some v) : (k, v) ∈ l := by
  induction l with
  | nil => simp [kvLookup] at hl
  | cons a t ih =>
    obtain ⟨a1, a2⟩ := a
    by_cases ha : a1 = k
    · simp only [kvLookup, ha, if_pos rfl] at hl
      injection hl with hv
      subst ha
      subst hv
      exact List.mem_cons_self _ _
    · simp only [kvLookup, ha, if_false] at hl
      · exact List.mem_cons_of_mem _ (ih hl)

theorem mem_foldl_kvDel (L : List Book) (l : List (String × Book))
    (e : String × Book) :
    e ∈ L.foldl (fun bs b => kvDel bs b.id) l ↔ e ∈ l ∧ ∀ b ∈ L, e.1 ≠ b.id := by
  induction L generalizing l with
  | nil => simp
  | cons b t ih =>
    simp only [List.foldl_cons, ih, mem_kvDel_iff, List.forall_mem_cons]
    tauto

theorem orElseFalsy_ne {o : Option String} {d : String} (hd : d ≠ "") :
    orElseFalsy o d ≠ "" := by
  cases o with
  | none => exact hd
  | some str => by_cases hs : str = "" <;> simp [orElseFalsy, hs, hd]

theorem namesNonempty_of_users_eq {s1 s2 : Store} (hu : s1.users = s2.users)
    (hN : NamesNonempty s2) : NamesNonempty s1 := by
  unfold NamesNonempty at *
  rw [hu]
  exact hN

theorem keyConsistent_of_books_eq {s1 s2 : Store} (hb : s1.books = s2.books)
    (hK : KeyConsistent s2) : KeyConsistent s1 := by
  unfold KeyConsistent at *
  rw [hb]
  exact hK

theorem bookOwnerInv_of_eq {s1 s2 : Store} (hb : s1.books = s2.books)
    (hc : s1.collections = s2.collections) (hI : BookOwnerInv s2) :
    BookOwnerInv s1 := by
  unfold BookOwnerInv at *
  rw [hb, hc]
  exact hI

theorem users_createCollection (p : String → Option String) (h : Option String)
    (body : CollectionBody) (newId now : String) (s : Store) :
    ((createCollection p h body newId now s).store).users = s.users := by
  unfold createCollection
  split
  · rfl
  · split <;> rfl

theorem users_createBook (p : String → Option String) (h : Option String)
    (body : CreateBookBody) (newId now : String) (s : Store) :
    ((createBook p h body newId now s).store).users = s.users := by
  unfold createBook
  split
  · rfl
  · split
    · rfl
    · split
      · rfl
      · split <;> rfl

theorem users_updateBook (p : String → Option String) (h : Option String)
    (bookId : String) (body : UpdateBookBody) (now : String) (s : Store) :
    ((updateBook p h bookId body now s).store).users = s.users := by
  unfold updateBook
  split
  · rfl
  · split
    · rfl
    · split <;> rfl

theorem users_deleteBook (p : String → Option String) (h : Option String)
    (bookId : String) (s : Store) :
    ((deleteBook p h bookId s).store).users = s.users := by
  unfold deleteBook
  split
  · rfl
  · split
    · rfl
    · split <;> rfl

theorem users_deleteCollection (p : String → Option String) (h : Option String)
    (collectionId : String) (s : Store) :
    ((deleteCollection p h collectionId s).store).users = s.users := by
  unfold deleteCollection
  split
  · rfl
  · split
    · rfl
    · split <;> rfl

theorem books_signup (uid : String) (body : SignupBody) (s : Store) :
    ((signup uid body s).store).books = s.books := by
  unfold signup
  split <;> rfl

theorem collections_signup (uid : String) (body : SignupBody) (s : Store) :
    ((signup uid body s).store).collections = s.collections := by
  unfold signup
  split <;> rfl

theorem books_updateProfile (p : String → Option String) (h : Option String)
    (body : ProfileBody) (now : String) (s : Store) :
    ((updateProfile p h body now s).store).books = s.books := by
  unfold updateProfile
  split
  · rfl
  · split <;> rfl

theorem collections_updateProfile (p : String → Option String) (h : Option String)
    (body : ProfileBody) (now : String) (s : Store) :
    ((updateProfile p h body now s).store).collections = s.collections := by
  unfold updateProfile
  split
  · rfl
  · split <;> rfl

theorem collections_createBook (p : String → Option String) (h : Option String)
    (body : CreateBookBody) (newId now : String) (s : Store) :
    ((createBook p h body newId now s).store).collections = s.collections := by
  unfold createBook
  split
  · rfl
  · split
    · rfl
    · split
      · rfl
      · split <;> rfl

theorem collections_updateBook (p : String → Option String) (h : Option String)
    (bookId : String) (body : UpdateBookBody) (now : String) (s : Store) :
    ((updateBook p h bookId body now s).store).collections = s.collections := by
  unfold updateBook
  split
  · rfl
  · split
    · rfl
    · split <;> rfl

theorem collections_deleteBook (p : String → Option String) (h : Option String)
    (bookId : String) (s : Store) :
    ((deleteBook p h bookId s).store).collections = s.collections := by
  unfold deleteBook
  split
  · rfl
  · split
    · rfl
    · split <;> rfl

theorem namesNonempty_signup (uid : String) (body : SignupBody) (s : Store)
    (hN : NamesNonempty s) : NamesNonempty (signup uid body s).store := by
  unfold signup
  split
  · exact hN
  · next hcond =>
    intro e he
    rcases mem_kvSet_iff.mp he with ⟨h1, _⟩ | rfl
    · exact hN e h1
    · push_neg at hcond
      exact hcond.2.2

theorem namesNonempty_updateProfile (p : String → Option String)
    (h : Option String) (body : ProfileBody) (now : String) (s : Store)
    (hN : NamesNonempty s) : NamesNonempty (updateProfile p h body now s).store := by
  unfold updateProfile
  split
  · exact hN
  · split
    · exact hN
    · next user huser =>
      intro e he
      rcases mem_kvSet_iff.mp he with ⟨h1, _⟩ | rfl
      · exact hN e h1
      · exact orElseFalsy_ne (hN _ (kvLookup_mem huser))

/-- Every reachable store has only user records with a nonempty name:
signup rejects a falsy name and profile update merges the name by falsy
coalescing from a stored record. -/
theorem reachable_namesNonempty {s : Store} (hr : Reachable s) :
    NamesNonempty s := by
  induction hr with
  | init => intro e he; cases he
  | step_signup s uid body _ ih => exact namesNonempty_signup uid body s ih
  | step_createCollection s p h body newId now _ _ ih =>
    exact namesNonempty_of_users_eq (users_createCollection p h body newId now s) ih
  | step_createBook s p h body newId now _ _ ih =>
    exact namesNonempty_of_users_eq (users_createBook p h body newId now s) ih
  | step_updateBook s p h bookId body now _ ih =>
    exact namesNonempty_of_users_eq (users_updateBook p h bookId body now s) ih
  | step_deleteBook s p h bookId _ ih =>
    exact namesNonempty_of_users_eq (users_deleteBook p h bookId s) ih
  | step_deleteCollection s p h collectionId _ ih =>
    exact namesNonempty_of_users_eq (users_deleteCollection p h collectionId s) ih
  | step_updateProfile s p h body now _ ih =>
    exact namesNonempty_updateProfile p h body now s ih

theorem keyConsistent_createBook (p : String → Option String) (h : Option String)
    (body : CreateBookBody) (newId now : String) (s : Store)
    (hK : KeyConsistent s) : KeyConsistent (createBook p h body newId now s).store := by
  unfold createBook
  split
  · exact hK
  · split
    · exact hK
    · split
      · exact hK
      · split
        · intro e he
          rcases mem_kvSet_iff.mp he with ⟨h1, _⟩ | rfl
          · exact hK e h1
          · rfl
        · exact hK

theorem keyConsistent_updateBook (p : String → Option String) (h : Option String)
    (bookId : String) (body : UpdateBookBody) (now : String) (s : Store)
    (hK : KeyConsistent s) : KeyConsistent (updateBook p h bookId body now s).store := by
  unfold updateBook
  split
  · exact hK
  · split
    · exact hK
    · next book hbook =>
      split
      · intro e he
        rcases mem_kvSet_iff.mp he with ⟨h1, _⟩ | rfl
        · exact hK e h1
        · exact hK (bookId, book) (kvLookup_mem hbook)
      · exact hK

theorem keyConsistent_deleteBook (p : String → Option String) (h : Option String)
    (bookId : String) (s : Store) (hK : KeyConsistent s) :
    KeyConsistent (deleteBook p h bookId s).store := by
  unfold deleteBook
  split
  · exact hK
  · split
    · exact hK
    · split
      · intro e he
        exact hK e (mem_kvDel_iff.mp he).1
      · exact hK

theorem keyConsistent_deleteCollection (p : String → Option String)
    (h : Option String) (collectionId : String) (s : Store) (hK : KeyConsistent s) :
    KeyConsistent (deleteCollection p h collectionId s).store := by
  unfold deleteCollection
  split
  · exact hK
  · split
    · exact hK
    · split
      · intro e he
        exact hK e ((mem_foldl_kvDel _ _ _).mp he).1
      · exact hK

theorem bookOwnerInv_createCollection (p : String → Option String)
    (h : Option String) (body : CollectionBody) (newId now : String) (s : Store)
    (hfresh : kvLookup s.collections newId = none) (hI : BookOwnerInv s) :
    BookOwnerInv (createCollection p h body newId now s).store := by
  unfold createCollection
  split
  · exact hI
  · split
    · exact hI
    · intro e he
      have h0 := hI e he
      have hne : e.2.collectionId ≠ newId := by
        intro hcid
        rw [hcid, hfresh] at h0
        simp at h0
      show (kvLookup (kvSet s.collections newId _) e.2.collectionId).map
        Collection.userId = some e.2.userId
      rw [kvLookup_kvSet_ne hne]
      exact h0

theorem bookOwnerInv_createBook (p : String → Option String) (h : Option String)
    (body : CreateBookBody) (newId now : String) (s : Store)
    (hI : BookOwnerInv s) : BookOwnerInv (createBook p h body newId now s).store := by
  unfold createBook
  split
  · exact hI
  · next uid hA =>
    split
    · exact hI
    · split
      · exact hI
      · next coll hcoll =>
        split
        · next howner =>
          intro e he
          rcases mem_kvSet_iff.mp he with ⟨h1, _⟩ | rfl
          · exact hI e h1
          · show (kvLookup s.collections (body.collectionId.getD "")).map
              Collection.userId = some uid
            rw [hcoll]
            simp [Option.map, howner]
        · exact hI

theorem bookOwnerInv_deleteBook (p : String → Option String) (h : Option String)
    (bookId : String) (s : Store) (hI : BookOwnerInv s) :
    BookOwnerInv (deleteBook p h bookId s).store := by
  unfold deleteBook
  split
  · exact hI
  · split
    · exact hI
    · split
      · intro e he
        exact hI e (mem_kvDel_iff.mp he).1
      · exact hI

theorem bookOwnerInv_deleteCollection (p : String → Option String)
    (h : Option String) (collectionId : String) (s : Store)
    (hK : KeyConsistent s) (hI : BookOwnerInv s) :
    BookOwnerInv (deleteCollection p h collectionId s).store := by
  unfold deleteCollection
  split
  · exact hI
  · split
    · exact hI
    · split
      · intro e he
        have hmem := (mem_foldl_kvDel _ _ _).mp he
        have h0 := hI e hmem.1
        have hne : e.2.collectionId ≠ collectionId := by
          intro hcid
          have hself : e.2 ∈ (s.books.map (fun e2 => e2.2)).filter
              (fun b => b.collectionId = collectionId) := by
            rw [List.mem_filter]
            refine ⟨List.mem_map_of_mem _ hmem.1, by simp [hcid]⟩
          have := hmem.2 e.2 hself
          exact this (hK e hmem.1)
        show (kvLookup (kvDel s.collections collectionId) e.2.collectionId).map
          Collection.userId = some e.2.userId
        rw [kvLookup_kvDel_ne hne]
        exact h0
      · exact hI

/-- Joint induction for the ownership invariant over the mutating
handlers other than book update: key consistency and the ownership
invariant hold in every such reachable store. -/
theorem reachableNoPut_inv {s : Store} (hr : ReachableNoPut s) :
    KeyConsistent s ∧ BookOwnerInv s := by
  induction hr with
  | init =>
    constructor
    · intro e he
      cases he
    · intro e he
      cases he
  | step_signup s uid body _ ih =>
    exact ⟨keyConsistent_of_books_eq (books_signup uid body s) ih.1,
      bookOwnerInv_of_eq (books_signup uid body s) (collections_signup uid body s) ih.2⟩
  | step_createCollection s p h body newId now _ hfresh ih =>
    refine ⟨keyConsistent_of_books_eq ?_ ih.1,
      bookOwnerInv_createCollection p h body newId now s hfresh ih.2⟩
    unfold createCollection
    split
    · rfl
    · split <;> rfl
  | step_createBook s p h body newId now _ _ ih =>
    exact ⟨keyConsistent_createBook p h body newId now s ih.1,
      bookOwnerInv_createBook p h body newId now s ih.2⟩
  | step_deleteBook s p h bookId _ ih =>
    exact ⟨keyConsistent_deleteBook p h bookId s ih.1,
      bookOwnerInv_deleteBook p h bookId s ih.2⟩
  | step_deleteCollection s p h collectionId _ ih =>
    exact ⟨keyConsistent_deleteCollection p h collectionId s ih.1,
      bookOwnerInv_deleteCollection p h collectionId s ih.1 ih.2⟩
  | step_updateProfile s p h body now _ ih =>
    exact ⟨keyConsistent_of_books_eq (books_updateProfile p h body now s) ih.1,
      bookOwnerInv_of_eq (books_updateProfile p h body now s)
        (collections_updateProfile p h body now s) ih.2⟩

/-- Example identity provider used by concrete witnesses: token ta is
alice, token tb is bob, every other token is rejected. -/
def pEx : String → Option String :=
  fun t => if t = "ta" then some "alice" else if t = "tb" then some "bob" else none

/-- C1: for every authenticated book creation whose referenced
collection is absent from the store or has a userId different from the
caller, the response is 403 and the store is unchanged, so no book
record is persisted. -/
theorem c1_create_book_foreign_collection (p : String → Option String)
    (h : Option String) (body : CreateBookBody) (newId now : String) (s : Store)
    (uid : String) (hA : checkAuth p h = some uid)
    (htitle : body.title.getD "" ≠ "")
    (hcid : body.collectionId.getD "" ≠ "")
    (hbad : kvLookup s.collections (body.collectionId.getD "") = none ∨
      ∃ c, kvLookup s.collections (body.collectionId.getD "") = some c ∧
        c.userId ≠ uid) :
    createBook p h body newId now s = ⟨403, s⟩ := by
  unfold createBook
  simp only [hA]
  rw [if_neg (not_or.mpr ⟨htitle, hcid⟩)]
  rcases hbad with hnone | ⟨c, hc, hne⟩
  · simp only [hnone]
  · simp only [hc]
    rw [if_neg hne]

/-- Witness for C1 at a concrete input: alice creates a book into a
collection owned by bob and is rejected with 403, the store unchanged. -/
theorem c1_witness :
    checkAuth pEx (some "Bearer ta") = some "alice" ∧
    createBook pEx (some "Bearer ta") ⟨some "Dune", none, none, some "c9", none⟩
      "b1" "t1"
      ⟨[], [("c9", ⟨"c9", "Horror", "", "bob", "t0"⟩)], []⟩ =
      ⟨403, ⟨[], [("c9", ⟨"c9", "Horror", "", "bob", "t0"⟩)], []⟩⟩ :=
  ⟨by decide,
    c1_create_book_foreign_collection pEx (some "Bearer ta")
      ⟨some "Dune", none, none, some "c9", none⟩ "b1" "t1"
      ⟨[], [("c9", ⟨"c9", "Horror", "", "bob", "t0"⟩)], []⟩ "alice"
      (by decide) (by decide) (by decide)
      (Or.inr ⟨⟨"c9", "Horror", "", "bob", "t0"⟩, by decide, by decide⟩)⟩

/-- C5: for every request to a protected route whose Authorization
header is absent, does not start with "Bearer ", or carries a token the
identity provider rejects, the response is 401 and the store is
unchanged, for all nine protected routes. -/
theorem c5_unauthenticated_401 (p : String → Option String) (h : Option String)
    (s : Store) (hfail : verifyUser p h = none) :
    getMyBooks p h s = ⟨401, [], s⟩ ∧
    getMyCollections p h s = ⟨401, [], s⟩ ∧
    (∀ body newId now, createCollection p h body newId now s = ⟨401, s⟩) ∧
    (∀ body newId now, createBook p h body newId now s = ⟨401, s⟩) ∧
    (∀ bookId body now, updateBook p h bookId body now s = ⟨401, s⟩) ∧
    (∀ bookId, deleteBook p h bookId s = ⟨401, s⟩) ∧
    (∀ collectionId, deleteCollection p h collectionId s = ⟨401, s⟩) ∧
    getMyProfile p h s = ⟨401, none, s⟩ ∧
    (∀ body now, updateProfile p h body now s = ⟨401, s⟩) := by
  have hA : checkAuth p h = none := by
    unfold checkAuth
    rw [hfail]
  refine ⟨?_, ?_, ?_, ?_, ?_, ?_, ?_, ?_, ?_⟩ <;>
    intros <;>
    simp [getMyBooks, getMyCollections, createCollection, createBook, updateBook,
      deleteBook, deleteCollection, getMyProfile, updateProfile, hA]

/-- Witness for C5 at a concrete input: a request with no Authorization
header is rejected with 401 on every protected route. -/
theorem c5_witness :
    verifyUser pEx none = none ∧
    getMyBooks pEx none Store.empty = ⟨401, [], Store.empty⟩ ∧
    getMyCollections pEx none Store.empty = ⟨401, [], Store.empty⟩ ∧
    (∀ body newId now, createCollection pEx none body newId now Store.empty =
      ⟨401, Store.empty⟩) ∧
    (∀ body newId now, createBook pEx none body newId now Store.empty =
      ⟨401, Store.empty⟩) ∧
    (∀ bookId body now, updateBook pEx none bookId body now Store.empty =
      ⟨401, Store.empty⟩) ∧
    (∀ bookId, deleteBook pEx none bookId Store.empty = ⟨401, Store.empty⟩) ∧
    (∀ collectionId, deleteCollection pEx none collectionId Store.empty =
      ⟨401, Store.empty⟩) ∧
    getMyProfile pEx none Store.empty = ⟨401, none, Store.empty⟩ ∧
    (∀ body now, updateProfile pEx none body now Store.empty = ⟨401, Store.empty⟩) :=
  ⟨rfl, c5_unauthenticated_401 pEx none Store.empty rfl⟩

/-- C6: for every authenticated update or deletion of a book that is
absent or not owned by the caller, the response is the single combined
error with status 403 and the store is unchanged. -/
theorem c6_book_put_delete_combined_403 (p : String → Option String)
    (h : Option String) (bookId : String) (s : Store) (uid : String)
    (hA : checkAuth p h = some uid)
    (hbad : kvLookup s.books bookId = none ∨
      ∃ b, kvLookup s.books bookId = some b ∧ b.userId ≠ uid) :
    (∀ body now, updateBook p h bookId body now s = ⟨403, s⟩) ∧
    deleteBook p h bookId s = ⟨403, s⟩ := by
  rcases hbad with hnone | ⟨b, hb, hne⟩
  · constructor
    · intro body now
      unfold updateBook
      simp only [hA, hnone]
    · unfold deleteBook
      simp only [hA, hnone]
  · constructor
    · intro body now
      unfold updateBook
      simp only [hA, hb]
      rw [if_neg hne]
    · unfold deleteBook
      simp only [hA, hb]
      rw [if_neg hne]

/-- Witness for C6 at a concrete input: alice updates and deletes a
book owned by bob and is rejected with 403, the store unchanged. -/
theorem c6_witness :
    checkAuth pEx (some "Bearer ta") = some "alice" ∧
    ((∀ body now, updateBook pEx (some "Bearer ta") "b7" body now
        ⟨[], [], [("b7", ⟨"b7", "T", "", "", "", "c1", "bob", "t0", none⟩)]⟩ =
        ⟨403, ⟨[], [], [("b7", ⟨"b7", "T", "", "", "", "c1", "bob", "t0", none⟩)]⟩⟩) ∧
      deleteBook pEx (some "Bearer ta") "b7"
        ⟨[], [], [("b7", ⟨"b7", "T", "", "", "", "c1", "bob", "t0", none⟩)]⟩ =
        ⟨403, ⟨[], [], [("b7", ⟨"b7", "T", "", "", "", "c1", "bob", "t0", none⟩)]⟩⟩) :=
  ⟨by decide,
    c6_book_put_delete_combined_403 pEx (some "Bearer ta") "b7"
      ⟨[], [], [("b7", ⟨"b7", "T", "", "", "", "c1", "bob", "t0", none⟩)]⟩ "alice"
      (by decide)
      (Or.inr ⟨⟨"b7", "T", "", "", "", "c1", "bob", "t0", none⟩, by decide, by decide⟩)⟩

/-- C9: for every authenticated create request whose required field is
present but equal to the empty string, the response is 400 exactly as
when the field is missing, and the store is unchanged. -/
theorem c9_empty_required_fields_400 (p : String → Option String)
    (h : Option String) (s : Store) (uid : String)
    (hA : checkAuth p h = some uid) :
    (∀ (body : CollectionBody) newId now, body.name = some "" →
      createCollection p h body newId now s = ⟨400, s⟩ ∧
      createCollection p h { body with name := none } newId now s = ⟨400, s⟩) ∧
    (∀ (body : CreateBookBody) newId now, body.title = some "" →
      createBook p h body newId now s = ⟨400, s⟩ ∧
      createBook p h { body with title := none } newId now s = ⟨400, s⟩) ∧
    (∀ (body : CreateBookBody) newId now, body.collectionId = some "" →
      createBook p h body newId now s = ⟨400, s⟩ ∧
      createBook p h { body with collectionId := none } newId now s = ⟨400, s⟩) := by
  refine ⟨?_, ?_, ?_⟩
  · intro body newId now hname
    constructor <;> simp [createCollection, hA, hname]
  · intro body newId now htitle
    constructor <;> simp [createBook, hA, htitle]
  · intro body newId now hcid
    constructor <;> simp [createBook, hA, hcid]

/-- Witness for C9 at a concrete input: an empty collection name and an
empty book title or collection id are each rejected with 400, exactly
as when the field is absent. -/
theorem c9_witness :
    checkAuth pEx (some "Bearer ta") = some "alice" ∧
    ((∀ newId now,
        createCollection pEx (some "Bearer ta") ⟨some "", some "d"⟩ newId now
          Store.empty = ⟨400, Store.empty⟩ ∧
        createCollection pEx (some "Bearer ta") ⟨none, some "d"⟩ newId now
          Store.empty = ⟨400, Store.empty⟩) ∧
      (∀ newId now,
        createBook pEx (some "Bearer ta") ⟨some "", none, none, some "c1", none⟩
          newId now Store.empty = ⟨400, Store.empty⟩ ∧
        createBook pEx (some "Bearer ta") ⟨none, none, none, some "c1", none⟩
          newId now Store.empty = ⟨400, Store.empty⟩) ∧
      (∀ newId now,
        createBook pEx (some "Bearer ta") ⟨some "T", none, none, some "", none⟩
          newId now Store.empty = ⟨400, Store.empty⟩ ∧
        createBook pEx (some "Bearer ta") ⟨some "T", none, none, none, none⟩
          newId now Store.empty = ⟨400, Store.empty⟩)) := by
  refine ⟨by decide, ?_, ?_, ?_⟩
  · intro newId now
    exact (c9_empty_required_fields_400 pEx (some "Bearer ta") Store.empty "alice"
      (by decide)).1 ⟨some "", some "d"⟩ newId now rfl
  · intro newId now
    exact (c9_empty_required_fields_400 pEx (some "Bearer ta") Store.empty "alice"
      (by decide)).2.1 ⟨some "", none, none, some "c1", none⟩ newId now rfl
  · intro newId now
    exact (c9_empty_required_fields_400 pEx (some "Bearer ta") Store.empty "alice"
      (by decide)).2.2 ⟨some "T", none, none, some "", none⟩ newId now rfl

/-- C3: for every existing book owned by the caller, the update handler
merges supplied fields per-field. First conjunct: a body supplying at
most the description leaves title, author, coverImage and collectionId
unchanged and sets updatedAt. Second conjunct: a body supplying the
empty string for all five fields keeps title and collectionId (falsy
coalescing ignores a supplied empty string) while author, description
and coverImage become the empty string (the explicit undefined test
accepts it). -/
theorem c3_partial_update_semantics (p : String → Option String)
    (h : Option String) (bookId now : String) (s : Store) (uid : String)
    (book : Book) (hA : checkAuth p h = some uid)
    (hbook : kvLookup s.books bookId = some book)
    (hown : book.userId = uid) :
    (∀ body : UpdateBookBody, body.title = none → body.author = none →
      body.coverImage = none → body.collectionId = none →
      kvLookup ((updateBook p h bookId body now s).store).books bookId =
        some { book with
          description := body.description.getD book.description,
          updatedAt := some now }) ∧
    (∀ body : UpdateBookBody, body.title = some "" → body.author = some "" →
      body.description = some "" → body.coverImage = some "" →
      body.collectionId = some "" →
      kvLookup ((updateBook p h bookId body now s).store).books bookId =
        some { book with
          author := "", description := "", coverImage := "", updatedAt := some now }) := by
  constructor
  · intro body h1 h2 h3 h4
    unfold updateBook
    simp only [hA, hbook]
    rw [if_pos hown]
    simp [h1, h2, h3, h4, orElseFalsy, kvLookup_kvSet_self]
  · intro body h1 h2 h3 h4 h5
    unfold updateBook
    simp only [hA, hbook]
    rw [if_pos hown]
    simp [h1, h2, h3, h4, h5, orElseFalsy, kvLookup_kvSet_self]

/-- An example book record used by concrete witnesses. -/
def bookEx : Book := ⟨"b1", "Dune", "Herbert", "old", "img", "c1", "alice", "t0", none⟩

/-- An example store used by concrete witnesses: one collection and one
book, both owned by alice. -/
def storeEx : Store :=
  ⟨[], [("c1", ⟨"c1", "SciFi", "", "alice", "t0"⟩)], [("b1", bookEx)]⟩

/-- Witness for C3 at a concrete input: a description-only body changes
only the description and updatedAt, and an all-empty body keeps title
and collectionId while clearing author, description and coverImage. -/
theorem c3_witness :
    kvLookup ((updateBook pEx (some "Bearer ta") "b1"
        ⟨none, none, some "new", none, none, none, none, none⟩ "t9" storeEx).store).books
      "b1" = some ⟨"b1", "Dune", "Herbert", "new", "img", "c1", "alice", "t0", some "t9"⟩ ∧
    kvLookup ((updateBook pEx (some "Bearer ta") "b1"
        ⟨some "", some "", some "", some "", some "", none, none, none⟩ "t9" storeEx).store).books
      "b1" = some ⟨"b1", "Dune", "", "", "", "c1", "alice", "t0", some "t9"⟩ := by
  have hc := c3_partial_update_semantics pEx (some "Bearer ta") "b1" "t9" storeEx
    "alice" bookEx (by decide) (by decide) (by decide)
  exact ⟨hc.1 _ rfl rfl rfl rfl, hc.2 _ rfl rfl rfl rfl rfl⟩

/-- C10: every successful book update preserves the id, userId and
createdAt fields of the stored record, whatever values for those fields
the request body supplies. -/
theorem c10_update_preserves_identity_fields (p : String → Option String)
    (h : Option String) (bookId now : String) (s : Store) (uid : String)
    (book : Book) (hA : checkAuth p h = some uid)
    (hbook : kvLookup s.books bookId = some book)
    (hown : book.userId = uid) (body : UpdateBookBody) :
    (updateBook p h bookId body now s).status = 200 ∧
    ∃ b2, kvLookup ((updateBook p h bookId body now s).store).books bookId =
        some b2 ∧
      b2.id = book.id ∧ b2.userId = book.userId ∧ b2.createdAt = book.createdAt := by
  unfold updateBook
  simp only [hA, hbook]
  rw [if_pos hown]
  exact ⟨rfl, _, kvLookup_kvSet_self s.books bookId _, rfl, rfl, rfl⟩

/-- Witness for C10 at a concrete input: a body that supplies id,
userId and createdAt values does not change those stored fields. -/
theorem c10_witness :
    (updateBook pEx (some "Bearer ta") "b1"
      ⟨some "New", none, none, none, none, some "EVIL", some "mallory", some "t99"⟩
      "t9" storeEx).status = 200 ∧
    ∃ b2, kvLookup ((updateBook pEx (some "Bearer ta") "b1"
        ⟨some "New", none, none, none, none, some "EVIL", some "mallory", some "t99"⟩
        "t9" storeEx).store).books "b1" = some b2 ∧
      b2.id = "b1" ∧ b2.userId = "alice" ∧ b2.createdAt = "t0" :=
  c10_update_preserves_identity_fields pEx (some "Bearer ta") "b1" "t9" storeEx
    "alice" bookEx (by decide) (by decide) (by decide)
    ⟨some "New", none, none, none, none, some "EVIL", some "mallory", some "t99"⟩

/-- C4: for every collection deletion by its owner, every book record
referencing the deleted collection is removed from the store, and the
collection record itself is removed. The cascade of the source deletes
each selected book by the id field of its record, so the statement
assumes the key consistency that every reachable store satisfies. -/
theorem c4_cascade_delete (p : String → Option String) (h : Option String)
    (collectionId : String) (s : Store) (uid : String) (coll : Collection)
    (hA : checkAuth p h = some uid)
    (hcoll : kvLookup s.collections collectionId = some coll)
    (hown : coll.userId = uid) (hK : KeyConsistent s) :
    (deleteCollection p h collectionId s).status = 200 ∧
    (∀ e ∈ ((deleteCollection p h collectionId s).store).books,
      e.2.collectionId ≠ collectionId) ∧
    kvLookup ((deleteCollection p h collectionId s).store).collections
      collectionId = none := by
  unfold deleteCollection
  simp only [hA, hcoll]
  rw [if_pos hown]
  refine ⟨rfl, ?_, ?_⟩
  · intro e he hcid
    have hmem := (mem_foldl_kvDel _ _ _).mp he
    have hself : e.2 ∈ (s.books.map (fun e2 => e2.2)).filter
        (fun b => b.collectionId = collectionId) := by
      rw [List.mem_filter]
      exact ⟨List.mem_map_of_mem _ hmem.1, by simp [hcid]⟩
    exact hmem.2 e.2 hself (hK e hmem.1)
  · exact kvLookup_kvDel_self s.collections collectionId

/-- An example store used by the C4 witness: two collections and three
books, two of the books in the collection that is deleted. -/
def c4Store : Store :=
  ⟨[],
   [("c1", ⟨"c1", "SciFi", "", "alice", "t0"⟩),
    ("c2", ⟨"c2", "Horror", "", "alice", "t0"⟩)],
   [("b1", ⟨"b1", "A", "", "", "", "c1", "alice", "t0", none⟩),
    ("b2", ⟨"b2", "B", "", "", "", "c2", "alice", "t0", none⟩),
    ("b3", ⟨"b3", "C", "", "", "", "c1", "alice", "t0", none⟩)]⟩

/-- Witness for C4 at a concrete input: deleting a collection removes
its two member books and the collection record, while the book of the
other collection survives. -/
theorem c4_witness :
    (deleteCollection pEx (some "Bearer ta") "c1" c4Store).status = 200 ∧
    (∀ e ∈ ((deleteCollection pEx (some "Bearer ta") "c1" c4Store).store).books,
      e.2.collectionId ≠ "c1") ∧
    kvLookup ((deleteCollection pEx (some "Bearer ta") "c1" c4Store).store).collections
      "c1" = none :=
  c4_cascade_delete pEx (some "Bearer ta") "c1" c4Store "alice"
    ⟨"c1", "SciFi", "", "alice", "t0"⟩ (by decide) (by decide) (by decide)
    (by unfold KeyConsistent; decide)

/-- C2 as amended: in every store reachable without book updates, every
book record references a collection that is present in the store and
whose userId equals the userId of the book: creation establishes it and
signup, collection creation, book creation, book deletion, collection
deletion and profile update preserve it. Book update is excluded: it
overwrites collectionId from the request body without any existence or
ownership check on the new collection, and can break the invariant. -/
theorem c2_ownership_invariant_no_update {s : Store} (hr : ReachableNoPut s) :
    BookOwnerInv s :=
  (reachableNoPut_inv hr).2

/-- Witness for C2 at a concrete input: after signup, a collection
creation and a book creation the ownership invariant holds. -/
theorem c2_witness :
    BookOwnerInv (createBook pEx (some "Bearer ta")
      ⟨some "Dune", none, none, some "c1", none⟩ "b1" "t2"
      ((createCollection pEx (some "Bearer ta") ⟨some "SciFi", none⟩ "c1" "t1"
        ((signup "alice" ⟨some "a@x", some "pw", some "Alice"⟩
          Store.empty).store)).store)).store :=
  c2_ownership_invariant_no_update
    (ReachableNoPut.step_createBook _ pEx (some "Bearer ta") _ "b1" "t2"
      (ReachableNoPut.step_createCollection _ pEx (some "Bearer ta") _ "c1" "t1"
        (ReachableNoPut.step_signup _ "alice" _ ReachableNoPut.init) (by decide))
      (by decide))

/-- The store reached by: alice and bob sign up, alice creates
collection c1, bob creates collection c2, alice creates book b1 in c1,
then alice updates b1 setting its collectionId to c2, which the update
handler accepts without any existence or ownership check. -/
def c2BadStore : Store :=
  (updateBook pEx (some "Bearer ta") "b1"
    ⟨none, none, none, none, some "c2", none, none, none⟩ "t6"
    ((createBook pEx (some "Bearer ta")
      ⟨some "Dune", none, none, some "c1", none⟩ "b1" "t5"
      ((createCollection pEx (some "Bearer tb") ⟨some "Horror", none⟩ "c2" "t4"
        ((createCollection pEx (some "Bearer ta") ⟨some "SciFi", none⟩ "c1" "t3"
          ((signup "bob" ⟨some "b@x", some "pw", some "Bob"⟩
            ((signup "alice" ⟨some "a@x", some "pw", some "Alice"⟩
              Store.empty).store)).store)).store)).store)).store)).store

/-- C2 counterexample: a reachable store in which a book record (b1,
owned by alice) references a collection (c2, owned by bob) with a
different userId, produced by the book update handler, so the claimed
invariant is not preserved by every operation. -/
theorem c2_counterexample : Reachable c2BadStore ∧ ¬ BookOwnerInv c2BadStore := by
  constructor
  · unfold c2BadStore
    exact Reachable.step_updateBook _ pEx (some "Bearer ta") "b1" _ "t6"
      (Reachable.step_createBook _ pEx (some "Bearer ta") _ "b1" "t5"
        (Reachable.step_createCollection _ pEx (some "Bearer tb") _ "c2" "t4"
          (Reachable.step_createCollection _ pEx (some "Bearer ta") _ "c1" "t3"
            (Reachable.step_signup _ "bob" _
              (Reachable.step_signup _ "alice" _ Reachable.init))
            (by decide))
          (by decide))
        (by decide))
  · unfold c2BadStore BookOwnerInv
    decide

/-- C7 counterexample: with a valid bearer token and no stored user
record for the caller, the GET profile handler responds 200 with a null
user payload, not 404: only the PUT profile handler checks for the
missing record. -/
theorem c7_counterexample :
    checkAuth pEx (some "Bearer ta") = some "alice" ∧
    kvLookup (Store.empty).users "alice" = none ∧
    (getMyProfile pEx (some "Bearer ta") Store.empty).status = 200 := by
  decide

/-- C7 as amended: with a valid bearer token, the GET profile handler
always responds 200, returning the user record of the caller or a null
payload when it is absent, so its only error response is 401; the PUT
profile handler responds 404 with the store unchanged when the user
record is absent. -/
theorem c7_profile_errors (p : String → Option String) (h : Option String)
    (s : Store) (uid : String) (hA : checkAuth p h = some uid) :
    ((getMyProfile p h s).status = 200 ∧
     (getMyProfile p h s).user = kvLookup s.users uid ∧
     (getMyProfile p h s).store = s) ∧
    (kvLookup s.users uid = none →
      ∀ body now, updateProfile p h body now s = ⟨404, s⟩) := by
  constructor
  · unfold getMyProfile
    simp [hA]
  · intro hnone body now
    unfold updateProfile
    simp only [hA, hnone]

/-- Witness for C7 at a concrete input: alice authenticates against the
empty store; GET profile yields 200 with a null user, PUT profile
yields 404 with the store unchanged. -/
theorem c7_witness :
    ((getMyProfile pEx (some "Bearer ta") Store.empty).status = 200 ∧
     (getMyProfile pEx (some "Bearer ta") Store.empty).user =
       kvLookup (Store.empty).users "alice" ∧
     (getMyProfile pEx (some "Bearer ta") Store.empty).store = Store.empty) ∧
    (kvLookup (Store.empty).users "alice" = none →
      ∀ body now, updateProfile pEx (some "Bearer ta") body now Store.empty =
        ⟨404, Store.empty⟩) :=
  c7_profile_errors pEx (some "Bearer ta") Store.empty "alice" (by decide)

/-- C8: in every reachable store, every entry of the public collections
listing carries a userName equal to the name of the user record of the
collection owner, or the sentinel "Unknown User" when that record is
absent. -/
theorem c8_collections_user_name {s : Store} (hr : Reachable s) :
    ∀ e ∈ getCollections s,
      (∀ u, kvLookup s.users e.1.userId = some u → e.2 = u.name) ∧
      (kvLookup s.users e.1.userId = none → e.2 = "Unknown User") := by
  intro e he
  unfold getCollections at he
  rcases List.mem_map.mp he with ⟨ec, hmem, rfl⟩
  dsimp only
  constructor
  · intro u hu
    have hn : u.name ≠ "" := reachable_namesNonempty hr _ (kvLookup_mem hu)
    simp only [hu]
    rw [if_neg hn]
  · intro hnone
    simp only [hnone]

/-- A reachable store used by the C8 witness: alice signs up and
creates a collection, and bob, who authenticates against the identity
provider but has no stored user record, creates another collection. -/
def c8Store : Store :=
  (createCollection pEx (some "Bearer tb") ⟨some "Horror", none⟩ "c2" "t4"
    ((createCollection pEx (some "Bearer ta") ⟨some "SciFi", none⟩ "c1" "t3"
      ((signup "alice" ⟨some "a@x", some "pw", some "Alice"⟩
        Store.empty).store)).store)).store

/-- Witness for C8 at a concrete input: in the listing of c8Store, the
entry of the collection of alice carries her stored name and the entry
of the collection of bob, who has no user record, carries the
sentinel. -/
theorem c8_witness :
    ((⟨"c1", "SciFi", "", "alice", "t3"⟩ : Collection), "Alice").2 =
      (⟨"alice", "a@x", "Alice", none, none⟩ : User).name ∧
    ((⟨"c2", "Horror", "", "bob", "t4"⟩ : Collection), "Unknown User").2 =
      "Unknown User" := by
  have hr : Reachable c8Store :=
    Reachable.step_createCollection _ pEx (some "Bearer tb") _ "c2" "t4"
      (Reachable.step_createCollection _ pEx (some "Bearer ta") _ "c1" "t3"
        (Reachable.step_signup _ "alice" _ Reachable.init) (by decide))
      (by decide)
  constructor
  · exact (c8_collections_user_name hr
      ((⟨"c1", "SciFi", "", "alice", "t3"⟩ : Collection), "Alice") (by decide)).1
      ⟨"alice", "a@x", "Alice", none, none⟩ (by decide)
  · exact (c8_collections_user_name hr
      ((⟨"c2", "Horror", "", "bob", "t4"⟩ : Collection), "Unknown User")
      (by decide)).2 (by decide)
